import Mathlib

set_option linter.unusedVariables false

/-!
Shallow embedding of the MAIA button driver
(`src/components/drivers/button/src/button.c`).

The driver is a debounce / gesture state machine driven by a GPIO edge
interrupt and three one-shot timers.  The external collaborators
(esp_timer, GPIO) are modelled as follows:

* the instantaneous GPIO level (`gpio_get_level`) is an input of every
  handler invocation (0 = pressed, active low);
* the current time (`esp_timer_get_time() / 1000`, milliseconds) is an
  input of every handler invocation, as an unbounded integer (the C type
  is `int64_t` microseconds since boot; overflow is unreachable);
* the Timer Service is modelled from the spec (section 6, it is not part
  of `src/`): an armed one-shot timer is an optional deadline in ms;
  `schedule_once` on an already-armed timer cancels and re-arms; a timer
  callback can only be invoked while the timer is armed, and firing
  consumes the arming.
-/

namespace MaiaButton

/-- Semantic button events, mirroring `button_event_t` in `button.h`. -/
inductive Event
  | PRESSED
  | RELEASED
  | SINGLE_CLICK
  | DOUBLE_CLICK
  | LONG_PRESS
  | EXTRA_LONG_PRESS_1
  | EXTRA_LONG_PRESS_2
deriving DecidableEq, Repr

/-- Engine states, mirroring `button_state_t` in `button.c`
(`BUTTON_STATE_IDLE = 0`, ...). -/
inductive State
  | IDLE
  | DEBOUNCING_PRESS
  | PRESSED
  | DEBOUNCING_RELEASE
  | WAIT_DOUBLE_CLICK
deriving DecidableEq, Repr

/-- The compile-time Kconfig thresholds (`CONFIG_MAIA_BUTTON_*`), all in
milliseconds, as read by `button.c` through the `*_THRESHOLD_MS` macros. -/
structure Config where
  debounce_ms : Nat
  double_click_window_ms : Nat
  long_press_ms : Nat
  extra_long_1_ms : Nat
  extra_long_2_ms : Nat
deriving DecidableEq, Repr

/-- The engine part of `button_context_t` (fields `state`, `press_time`,
`click_count`) together with the arming state of the three one-shot timers
owned by the context.  A timer is `some d` when armed with deadline `d`
(ms) and `none` when idle.  `click_count` is a C `uint8_t`, so increments
are taken mod 256. -/
structure ButtonCtx where
  state : State
  press_time : Int
  click_count : Nat
  debounce_deadline : Option Int
  press_deadline : Option Int
  double_deadline : Option Int
deriving DecidableEq, Repr

/-- The engine state right after `button_init`: `memset` to zero and
`state = BUTTON_STATE_IDLE` (which is the zero enumerator), no timer armed. -/
def initCtx : ButtonCtx :=
  { state := State.IDLE
    press_time := 0
    click_count := 0
    debounce_deadline := none
    press_deadline := none
    double_deadline := none }

/-- Modelled from the spec: the Timer Service `schedule_once` (section 6,
the timer service is not part of `src/`): arming a one-shot timer for
`delay` ms at time `now` sets its deadline, re-arming an armed timer
replaces the previous deadline. -/
def startOnce (now delay : Int) : Option Int :=
  some (now + delay)

/-- Translation of `button_isr_handler` (button.c:121-145).  `level` is the
value `gpio_get_level(MAIA_GPIO_BUTTON)` returns inside the handler. -/
def button_isr_handler (cfg : Config) (now : Int) (level : Nat)
    (c : ButtonCtx) : ButtonCtx :=
  if c.state = State.IDLE ∨ c.state = State.PRESSED ∨
      c.state = State.WAIT_DOUBLE_CLICK then
    let c := { c with
      debounce_deadline := startOnce now (cfg.debounce_ms : Int) }
    if level = 0 then
      { c with state := State.DEBOUNCING_PRESS }
    else
      { c with state := State.DEBOUNCING_RELEASE }
  else
    c

/-- Translation of `button_process_press` (button.c:191-203).  Emits
`BUTTON_EVENT_PRESSED` and arms the press timer for `LONG_PRESS_THRESHOLD_MS`. -/
def button_process_press (cfg : Config) (now : Int) (c : ButtonCtx) :
    ButtonCtx × List Event :=
  ({ c with
      press_time := now
      state := State.PRESSED
      press_deadline := startOnce now (cfg.long_press_ms : Int) },
   [Event.PRESSED])

/-- Translation of `button_process_release` (button.c:213-273).  Stops the
press and double-click timers, emits `BUTTON_EVENT_RELEASED`, then
classifies the hold duration. -/
def button_process_release (cfg : Config) (now : Int) (c : ButtonCtx) :
    ButtonCtx × List Event :=
  let c := { c with press_deadline := none, double_deadline := none }
  let held : Int := now - c.press_time
  if held ≥ (cfg.extra_long_2_ms : Int) then
    ({ c with click_count := 0, state := State.IDLE }, [Event.RELEASED])
  else if held ≥ (cfg.extra_long_1_ms : Int) then
    ({ c with click_count := 0, state := State.IDLE }, [Event.RELEASED])
  else if held ≥ (cfg.long_press_ms : Int) then
    ({ c with click_count := 0, state := State.IDLE }, [Event.RELEASED])
  else
    let cc := (c.click_count + 1) % 256
    if cc = 1 then
      ({ c with
          click_count := cc
          state := State.WAIT_DOUBLE_CLICK
          double_deadline := startOnce now (cfg.double_click_window_ms : Int) },
       [Event.RELEASED])
    else if cc = 2 then
      ({ c with click_count := 0, state := State.IDLE },
       [Event.RELEASED, Event.DOUBLE_CLICK])
    else
      ({ c with click_count := cc }, [Event.RELEASED])

/-- Translation of `button_debounce_timer_callback` (button.c:155-181).
`level` is the re-sampled GPIO level at expiry of the debounce window. -/
def button_debounce_timer_callback (cfg : Config) (now : Int) (level : Nat)
    (c : ButtonCtx) : ButtonCtx × List Event :=
  if c.state = State.DEBOUNCING_PRESS then
    if level = 0 then
      button_process_press cfg now c
    else
      ({ c with state := State.IDLE }, [])
  else if c.state = State.DEBOUNCING_RELEASE then
    if level = 1 then
      button_process_release cfg now c
    else
      ({ c with state := State.PRESSED }, [])
  else
    (c, [])

/-- Translation of `button_press_timer_callback` (button.c:283-329), the
cascading long-press tier logic. -/
def button_press_timer_callback (cfg : Config) (now : Int) (c : ButtonCtx) :
    ButtonCtx × List Event :=
  if c.state ≠ State.PRESSED then
    (c, [])
  else
    let held : Int := now - c.press_time
    if held ≥ (cfg.extra_long_2_ms : Int) then
      ({ c with press_deadline := none }, [Event.EXTRA_LONG_PRESS_2])
    else if held ≥ (cfg.extra_long_1_ms : Int) then
      ({ c with
          press_deadline := startOnce now ((cfg.extra_long_2_ms : Int) - held) },
       [Event.EXTRA_LONG_PRESS_1])
    else if held ≥ (cfg.long_press_ms : Int) then
      ({ c with
          press_deadline := startOnce now ((cfg.extra_long_1_ms : Int) - held) },
       [Event.LONG_PRESS])
    else
      (c, [])

/-- Translation of `button_double_click_timer_callback` (button.c:339-350). -/
def button_double_click_timer_callback (c : ButtonCtx) :
    ButtonCtx × List Event :=
  if c.state = State.WAIT_DOUBLE_CLICK then
    ({ c with click_count := 0, state := State.IDLE }, [Event.SINGLE_CLICK])
  else
    (c, [])

/-- One observable invocation of the engine: a GPIO edge (with the level the
ISR samples), or the expiry of one of the three one-shot timers (with the
time of the invocation, and for the debounce timer the re-sampled level). -/
inductive Step
  | edge (now : Int) (level : Nat)
  | debounceFire (now : Int) (level : Nat)
  | pressFire (now : Int)
  | doubleFire (now : Int)
deriving DecidableEq, Repr

/-- Execute one step.  A timer callback can only run when the timer is
armed (one-shot timers whose arming was cancelled never fire), and firing
consumes the arming before the callback body runs. -/
def stepRun (cfg : Config) (c : ButtonCtx) : Step → ButtonCtx × List Event
  | Step.edge now level => (button_isr_handler cfg now level c, [])
  | Step.debounceFire now level =>
      match c.debounce_deadline with
      | none => (c, [])
      | some _ =>
          button_debounce_timer_callback cfg now level
            { c with debounce_deadline := none }
  | Step.pressFire now =>
      match c.press_deadline with
      | none => (c, [])
      | some _ =>
          button_press_timer_callback cfg now { c with press_deadline := none }
  | Step.doubleFire now =>
      match c.double_deadline with
      | none => (c, [])
      | some _ =>
          button_double_click_timer_callback { c with double_deadline := none }

/-- Execute a sequence of steps, collecting all emitted events in order. -/
def run (cfg : Config) (c : ButtonCtx) : List Step → ButtonCtx × List Event
  | [] => (c, [])
  | s :: rest =>
      ((run cfg (stepRun cfg c s).1 rest).1,
       (stepRun cfg c s).2 ++ (run cfg (stepRun cfg c s).1 rest).2)

/-- ESP-IDF error codes used by the driver: `ESP_OK`,
`ESP_ERR_INVALID_STATE` (the code's AlreadyInitialized / NotInitialized),
`ESP_ERR_INVALID_ARG`, plus codes surfaced from external calls. -/
inductive EspErr
  | OK
  | INVALID_STATE
  | INVALID_ARG
  | NO_MEM
  | FAIL
deriving DecidableEq, Repr

/-- Outcomes of the five fallible external calls made by `button_init`, in
program order: the three `esp_timer_create` calls, `gpio_isr_handler_add`,
and `gpio_set_intr_type`. -/
structure ExtCalls where
  debounce_create : EspErr
  press_create : EspErr
  double_create : EspErr
  isr_add : EspErr
  set_intr : EspErr
deriving DecidableEq, Repr

/-- All external calls succeed. -/
def extOK : ExtCalls :=
  { debounce_create := EspErr.OK
    press_create := EspErr.OK
    double_create := EspErr.OK
    isr_add := EspErr.OK
    set_intr := EspErr.OK }

/-- The whole `g_button_ctx` record for the lifecycle entry points:
whether the callback pointer is non-NULL, whether each timer handle has
been created (handle non-NULL), the timer arming state, and the engine
fields including the `initialized` flag. -/
structure Driver where
  callback_set : Bool
  debounce_created : Bool
  press_created : Bool
  double_created : Bool
  debounce_deadline : Option Int
  press_deadline : Option Int
  double_deadline : Option Int
  state : State
  press_time : Int
  initialized : Bool
  click_count : Nat
deriving DecidableEq, Repr

/-- The all-zero `g_button_ctx` (`static ... = {0}`, and the state after
`memset(&g_button_ctx, 0, ...)`): `BUTTON_STATE_IDLE` is the zero
enumerator, all pointers NULL, no timer armed. -/
def zeroDriver : Driver :=
  { callback_set := false
    debounce_created := false
    press_created := false
    double_created := false
    debounce_deadline := none
    press_deadline := none
    double_deadline := none
    state := State.IDLE
    press_time := 0
    initialized := false
    click_count := 0 }

/-- Translation of `button_init` (button.c:364-463).  `cfg` is the Kconfig
configuration the firmware is built with; note that `button_init` never
reads any of the threshold constants (no `CONFIG_MAIA_BUTTON_*` macro
occurs in its body), so the result cannot depend on `cfg`.
`callback_nonnull` models whether the `callback` argument is non-NULL.
After a failed `esp_timer_create`, the handles already created are passed
to `esp_timer_delete`; the context fields keep their values (the C code
does not reset them), which the model mirrors. -/
def button_init (cfg : Config) (ext : ExtCalls) (callback_nonnull : Bool)
    (d : Driver) : EspErr × Driver :=
  if d.initialized then
    (EspErr.INVALID_STATE, d)
  else if callback_nonnull = false then
    (EspErr.INVALID_ARG, d)
  else
    let d0 := { zeroDriver with callback_set := true, state := State.IDLE }
    if ext.debounce_create ≠ EspErr.OK then
      (ext.debounce_create, d0)
    else
      let d1 := { d0 with debounce_created := true }
      if ext.press_create ≠ EspErr.OK then
        (ext.press_create, d1)
      else
        let d2 := { d1 with press_created := true }
        if ext.double_create ≠ EspErr.OK then
          (ext.double_create, d2)
        else
          let d3 := { d2 with double_created := true }
          if ext.isr_add ≠ EspErr.OK then
            (ext.isr_add, d3)
          else if ext.set_intr ≠ EspErr.OK then
            (ext.set_intr, d3)
          else
            (EspErr.OK, { d3 with initialized := true })

/-- Translation of `button_deinit` (button.c:473-512).  When not
initialized it returns `ESP_ERR_INVALID_STATE` without touching anything;
otherwise it disables the interrupt, stops and deletes every non-NULL
timer, and `memset`s the context to zero, so the resulting context is
exactly the zero context. -/
def button_deinit (d : Driver) : EspErr × Driver :=
  if d.initialized = false then
    (EspErr.INVALID_STATE, d)
  else
    (EspErr.OK, zeroDriver)

/-!
Machinery for the alternation property (claim C1): scan the emitted event
list, tracking whether the next press/release event ought to be `PRESSED`
(`some true`), ought to be `RELEASED` (`some false`), or alternation has
already been violated (`none`).  Events other than `PRESSED`/`RELEASED`
are ignored by the scan.
-/

/-- Alternation scan step over one event. -/
def prNext : Option Bool → Event → Option Bool
  | none, _ => none
  | some b, Event.PRESSED => if b then some false else none
  | some b, Event.RELEASED => if b then none else some true
  | some b, _ => some b

/-- Alternation scan of an event list, starting from expectation `b`
(`true` = a `PRESSED` is due next).  The result is `none` exactly when the
`PRESSED`/`RELEASED` subsequence fails to alternate. -/
def prScan (b : Bool) (evs : List Event) : Option Bool :=
  evs.foldl prNext (some b)

/-- Whether, in the given engine state, the next confirmed press/release
event should be a press (`true`) or a release (`false`). -/
def expectPress : State → Bool
  | State.IDLE => true
  | State.DEBOUNCING_PRESS => true
  | State.WAIT_DOUBLE_CLICK => true
  | State.PRESSED => false
  | State.DEBOUNCING_RELEASE => false

/-- A step is a clean edge for context `c` when, if it is a raw edge, the
level the ISR samples differs from the stable line level of the state the
edge interrupts: edges taken in IDLE or WAIT_DOUBLE_CLICK (line stably
high) sample 0, edges taken in PRESSED (line stably low) sample 1.  Edges
taken while a debounce window is open are ignored by the ISR, so any level
is clean there; timer steps are always clean. -/
def cleanEdge (c : ButtonCtx) : Step → Bool
  | Step.edge _ level =>
      (!((c.state == State.IDLE) || (c.state == State.WAIT_DOUBLE_CLICK)) ||
        (level == 0)) &&
      (!(c.state == State.PRESSED) || (level == 1))
  | _ => true

/-- Every edge of the step sequence is clean for the context at which it is
taken. -/
def cleanFrom (cfg : Config) (c : ButtonCtx) : List Step → Bool
  | [] => true
  | s :: rest => cleanEdge c s && cleanFrom cfg (stepRun cfg c s).1 rest

/-- A concrete configuration used for witnesses and counterexamples:
debounce 20 ms, double-click window 300 ms, long-press tiers
1000 / 3000 / 5000 ms (monotonic). -/
def cfgA : Config :=
  { debounce_ms := 20
    double_click_window_ms := 300
    long_press_ms := 1000
    extra_long_1_ms := 3000
    extra_long_2_ms := 5000 }

/-- A non-monotonic configuration (thresholds 1000 / 500 / 200 violate
`long_press_ms < extra_long_press_1_ms < extra_long_press_2_ms`). -/
def cfgBad : Config :=
  { debounce_ms := 20
    double_click_window_ms := 300
    long_press_ms := 1000
    extra_long_1_ms := 500
    extra_long_2_ms := 200 }

/-!
Helper lemmas.
-/

/-- Auxiliary invariant step: a clean step taken in a context whose click
counter is at most 1 yields a context whose click counter is at most 1,
and moves the alternation scan from the expectation of the pre-state to
the expectation of the post-state. -/
theorem stepRun_alt (cfg : Config) (c : ButtonCtx) (s : Step)
    (hcc : c.click_count ≤ 1) (hg : cleanEdge c s = true) :
    (stepRun cfg c s).1.click_count ≤ 1 ∧
      prScan (expectPress c.state) (stepRun cfg c s).2 =
        some (expectPress (stepRun cfg c s).1.state) := by
  rcases c with ⟨st, pt, cc, dd, pd, dld⟩
  simp only [ButtonCtx.click_count] at hcc
  have hcc01 : cc = 0 ∨ cc = 1 := by omega
  cases s with
  | edge now level =>
      cases st <;>
        simp_all [stepRun, button_isr_handler, cleanEdge, expectPress,
          prScan, prNext, startOnce]
  | debounceFire now level =>
      cases dd with
      | none => simp_all [stepRun, prScan, prNext]
      | some d =>
          cases st <;>
            simp_all [stepRun, button_debounce_timer_callback,
              button_process_press, button_process_release, prScan, prNext,
              expectPress, startOnce] <;>
            rcases hcc01 with rfl | rfl <;>
            split_ifs <;>
            simp_all [prScan, prNext, expectPress]
  | pressFire now =>
      cases pd with
      | none => simp_all [stepRun, prScan, prNext]
      | some d =>
          cases st <;>
            simp_all [stepRun, button_press_timer_callback, prScan, prNext,
              expectPress, startOnce] <;>
            split_ifs <;>
            simp_all [prScan, prNext, expectPress]
  | doubleFire now =>
      cases dld with
      | none => simp_all [stepRun, prScan, prNext]
      | some d =>
          cases st <;>
            simp_all [stepRun, button_double_click_timer_callback, prScan,
              prNext, expectPress]

/-- Invariant over whole runs: along a clean step sequence the click
counter stays at most 1 and the emitted events scan to the expectation of
the final state. -/
theorem run_alt (cfg : Config) :
    ∀ (steps : List Step) (c : ButtonCtx), c.click_count ≤ 1 →
      cleanFrom cfg c steps = true →
      (run cfg c steps).1.click_count ≤ 1 ∧
        prScan (expectPress c.state) (run cfg c steps).2 =
          some (expectPress (run cfg c steps).1.state)
  | [], c, hcc, _ => by simp [run, prScan, prNext, hcc]
  | s :: rest, c, hcc, hg => by
      have hg2 : cleanEdge c s = true ∧
          cleanFrom cfg (stepRun cfg c s).1 rest = true := by
        simpa [cleanFrom, Bool.and_eq_true] using hg
      have h1 := stepRun_alt cfg c s hcc hg2.1
      have h2 := run_alt cfg rest (stepRun cfg c s).1 h1.1 hg2.2
      refine ⟨by simpa [run] using h2.1, ?_⟩
      show prScan (expectPress c.state)
          ((stepRun cfg c s).2 ++ (run cfg (stepRun cfg c s).1 rest).2) =
        some (expectPress (run cfg (stepRun cfg c s).1 rest).1.state)
      unfold prScan at h1 h2 ⊢
      rw [List.foldl_append, h1.2]
      exact h2.2

/-- Auxiliary invariant: whenever no debounce window is open (the state is
not one of the two DEBOUNCING states), the debounce timer is idle. -/
def DebounceIdle (c : ButtonCtx) : Prop :=
  c.state ≠ State.DEBOUNCING_PRESS ∧ c.state ≠ State.DEBOUNCING_RELEASE →
    c.debounce_deadline = none

/-- One step preserves the debounce-idle invariant. -/
theorem stepRun_debounceIdle (cfg : Config) (c : ButtonCtx) (s : Step)
    (h : DebounceIdle c) : DebounceIdle (stepRun cfg c s).1 := by
  rcases c with ⟨st, pt, cc, dd, pd, dld⟩
  cases s with
  | edge now level =>
      cases st <;>
        simp_all [DebounceIdle, stepRun, button_isr_handler, startOnce] <;>
        split_ifs <;> simp_all
  | debounceFire now level =>
      cases dd with
      | none => simpa [stepRun] using h
      | some d =>
          cases st <;>
            simp_all [DebounceIdle, stepRun, button_debounce_timer_callback,
              button_process_press, button_process_release, startOnce] <;>
            split_ifs <;> simp_all
  | pressFire now =>
      cases pd with
      | none => simpa [stepRun] using h
      | some d =>
          cases st <;>
            simp_all [DebounceIdle, stepRun, button_press_timer_callback,
              startOnce] <;>
            split_ifs <;> simp_all
  | doubleFire now =>
      cases dld with
      | none => simpa [stepRun] using h
      | some d =>
          cases st <;>
            simp_all [DebounceIdle, stepRun,
              button_double_click_timer_callback]

/-- A whole run preserves the debounce-idle invariant. -/
theorem run_debounceIdle (cfg : Config) :
    ∀ (steps : List Step) (c : ButtonCtx), DebounceIdle c →
      DebounceIdle (run cfg c steps).1
  | [], c, h => by simpa [run] using h
  | s :: rest, c, h => by
      have h1 := stepRun_debounceIdle cfg c s h
      simpa [run] using run_debounceIdle cfg rest (stepRun cfg c s).1 h1

/-!
Claim theorems.
-/

/-- C6: for every raw edge arriving while the state is DEBOUNCING_PRESS or
DEBOUNCING_RELEASE, `button_isr_handler` changes nothing: the state, the
tentative target and the already-armed debounce timer are left exactly as
they were. -/
theorem C6_edge_ignored_while_debouncing (cfg : Config) (now : Int)
    (level : Nat) (c : ButtonCtx)
    (h : c.state = State.DEBOUNCING_PRESS ∨
      c.state = State.DEBOUNCING_RELEASE) :
    button_isr_handler cfg now level c = c := by
  rcases h with h | h <;> simp [button_isr_handler, h]

/-- Witness for C6 at a concrete debouncing context. -/
theorem C6_edge_ignored_while_debouncing_witness :
    button_isr_handler cfgA 5 0
        { initCtx with
          state := State.DEBOUNCING_PRESS, debounce_deadline := some 20 } =
      { initCtx with
        state := State.DEBOUNCING_PRESS, debounce_deadline := some 20 } :=
  C6_edge_ignored_while_debouncing cfgA 5 0
    { initCtx with
      state := State.DEBOUNCING_PRESS, debounce_deadline := some 20 }
    (Or.inl rfl)

/-- C9: a timer callback fired in a state it is not responsible for is a
complete no-op: the debounce callback outside the DEBOUNCING states, the
press callback outside PRESSED, and the double-click callback outside
WAIT_DOUBLE_CLICK all return the context unchanged and emit nothing. -/
theorem C9_timer_callback_foreign_state_noop (cfg : Config) (now : Int)
    (level : Nat) (c : ButtonCtx) :
    (c.state = State.IDLE ∨ c.state = State.PRESSED ∨
        c.state = State.WAIT_DOUBLE_CLICK →
      button_debounce_timer_callback cfg now level c = (c, [])) ∧
    (c.state ≠ State.PRESSED →
      button_press_timer_callback cfg now c = (c, [])) ∧
    (c.state ≠ State.WAIT_DOUBLE_CLICK →
      button_double_click_timer_callback c = (c, [])) := by
  refine ⟨?_, ?_, ?_⟩
  · rintro (h | h | h) <;> simp [button_debounce_timer_callback, h]
  · intro h
    simp [button_press_timer_callback, h]
  · intro h
    simp [button_double_click_timer_callback, h]

/-- Witness for C9 at the post-init context (state IDLE). -/
theorem C9_timer_callback_foreign_state_noop_witness :
    button_debounce_timer_callback cfgA 7 1 initCtx = (initCtx, []) ∧
    button_press_timer_callback cfgA 7 initCtx = (initCtx, []) ∧
    button_double_click_timer_callback initCtx = (initCtx, []) :=
  ⟨(C9_timer_callback_foreign_state_noop cfgA 7 1 initCtx).1 (Or.inl rfl),
   (C9_timer_callback_foreign_state_noop cfgA 7 1 initCtx).2.1 (by decide),
   (C9_timer_callback_foreign_state_noop cfgA 7 1 initCtx).2.2 (by decide)⟩

/-- C8: `button_deinit` on a non-initialized driver returns the
NotInitialized error (`ESP_ERR_INVALID_STATE`) and performs no other
action; a successful deinit clears all state, and a second deinit
immediately after it fails the same clean way, leaving the cleared
state unchanged. -/
theorem C8_deinit_idempotent_failure (d : Driver) :
    (d.initialized = false →
      button_deinit d = (EspErr.INVALID_STATE, d)) ∧
    (d.initialized = true →
      button_deinit d = (EspErr.OK, zeroDriver) ∧
      button_deinit (button_deinit d).2 =
        (EspErr.INVALID_STATE, zeroDriver)) := by
  constructor
  · intro h
    simp [button_deinit, h]
  · intro h
    simp [button_deinit, h, zeroDriver]

/-- Witness for C8: deinit of the zero (inactive) driver fails cleanly;
deinit of an initialized driver succeeds and clears, and a repeat fails
cleanly. -/
theorem C8_deinit_idempotent_failure_witness :
    button_deinit zeroDriver = (EspErr.INVALID_STATE, zeroDriver) ∧
    button_deinit { zeroDriver with initialized := true } =
      (EspErr.OK, zeroDriver) ∧
    button_deinit
        (button_deinit { zeroDriver with initialized := true }).2 =
      (EspErr.INVALID_STATE, zeroDriver) :=
  ⟨(C8_deinit_idempotent_failure zeroDriver).1 rfl,
   ((C8_deinit_idempotent_failure { zeroDriver with initialized := true }).2
     rfl).1,
   ((C8_deinit_idempotent_failure { zeroDriver with initialized := true }).2
     rfl).2⟩

/-- C10: `button_init` on an already-initialized driver returns the
AlreadyInitialized error (`ESP_ERR_INVALID_STATE`) even when the callback
argument is NULL: the already-initialized check precedes the
missing-callback check, and the existing driver state is left unchanged. -/
theorem C10_already_initialized_precedence (cfg : Config) (ext : ExtCalls)
    (d : Driver) (h : d.initialized = true) :
    button_init cfg ext false d = (EspErr.INVALID_STATE, d) := by
  simp [button_init, h]

/-- Witness for C10 at a concrete initialized driver. -/
theorem C10_already_initialized_precedence_witness :
    button_init cfgA extOK false { zeroDriver with initialized := true } =
      (EspErr.INVALID_STATE, { zeroDriver with initialized := true }) :=
  C10_already_initialized_precedence cfgA extOK
    { zeroDriver with initialized := true } rfl

/-- C7 counterexample: with the non-monotonic thresholds of `cfgBad`
(1000 / 500 / 200), a fresh `button_init` with a valid callback and all
external calls succeeding returns `ESP_OK`, not `ESP_ERR_INVALID_ARG`:
`button_init` never validates threshold monotonicity. -/
theorem C7_counterexample :
    ¬ (cfgBad.long_press_ms < cfgBad.extra_long_1_ms ∧
        cfgBad.extra_long_1_ms < cfgBad.extra_long_2_ms) ∧
    (button_init cfgBad extOK true zeroDriver).1 = EspErr.OK ∧
    (button_init cfgBad extOK true zeroDriver).1 ≠ EspErr.INVALID_ARG := by
  decide

/-- C7 (amended): on a non-initialized driver with all external calls
succeeding, `button_init` returns `ESP_ERR_INVALID_ARG` exactly when the
callback is NULL and `ESP_OK` otherwise, for every configuration: the
thresholds are never inspected, so non-monotonic thresholds are not
rejected. -/
theorem C7_init_no_threshold_check (cfg : Config) (ext : ExtCalls)
    (callback_nonnull : Bool) (d : Driver) (h : d.initialized = false)
    (he : ext = extOK) :
    (button_init cfg ext callback_nonnull d).1 =
      if callback_nonnull then EspErr.OK else EspErr.INVALID_ARG := by
  subst he
  cases callback_nonnull <;> simp [button_init, h, extOK]

/-- Witness for C7 (amended) at the non-monotonic configuration. -/
theorem C7_init_no_threshold_check_witness :
    (button_init cfgBad extOK true zeroDriver).1 = EspErr.OK :=
  C7_init_no_threshold_check cfgBad extOK true zeroDriver rfl rfl

/-- Trace for the C2 counterexample: a confirmed short click enters
WAIT_DOUBLE_CLICK (double timer armed, click_count 1), then a press edge
whose level reverts is rejected by the debounce timer, landing in IDLE. -/
def c2Trace : List Step :=
  [Step.edge 0 0, Step.debounceFire 20 0, Step.edge 120 1,
   Step.debounceFire 140 1, Step.edge 200 0, Step.debounceFire 220 1]

/-- C2 counterexample: a state reachable from the post-init state in which
`state = IDLE` while `click_count = 1` and the double-click timer is still
armed, refuting the claimed IDLE invariant. -/
theorem C2_counterexample :
    (run cfgA initCtx c2Trace).1.state = State.IDLE ∧
    (run cfgA initCtx c2Trace).1.click_count = 1 ∧
    (run cfgA initCtx c2Trace).1.double_deadline = some 440 := by
  decide

/-- C2 (amended): in every state reachable from the post-init state by any
sequence of ISR and timer-callback invocations, `state = IDLE` implies the
debounce timer is idle.  (The press timer, the double-click timer and
`click_count` can retain stale values in IDLE, as the counterexample
shows.) -/
theorem C2_idle_debounce_idle (cfg : Config) (steps : List Step)
    (h : (run cfg initCtx steps).1.state = State.IDLE) :
    (run cfg initCtx steps).1.debounce_deadline = none := by
  have hinv := run_debounceIdle cfg steps initCtx (fun _ => rfl)
  exact hinv (by simp [h])

/-- Witness for C2 (amended) at a concrete reachable IDLE state. -/
theorem C2_idle_debounce_idle_witness :
    (run cfgA initCtx c2Trace).1.debounce_deadline = none :=
  C2_idle_debounce_idle cfgA c2Trace (by decide)

/-- Prefix trace for the C3 counterexample, ending in WAIT_DOUBLE_CLICK. -/
def c3Pre : List Step :=
  [Step.edge 0 0, Step.debounceFire 20 0, Step.edge 120 1,
   Step.debounceFire 140 1]

/-- Full trace for the C3 counterexample: the prefix followed by a raw
edge in WAIT_DOUBLE_CLICK (ISR samples 0) whose level has reverted to the
pre-edge value 1 by the debounce expiry. -/
def c3Trace : List Step :=
  c3Pre ++ [Step.edge 200 0, Step.debounceFire 220 1]

/-- C3 counterexample: from WAIT_DOUBLE_CLICK, a raw edge whose level
reverts before the debounce window elapses emits nothing but does NOT
return the engine to its pre-edge state: it lands in IDLE instead of
WAIT_DOUBLE_CLICK. -/
theorem C3_counterexample :
    (run cfgA initCtx c3Pre).1.state = State.WAIT_DOUBLE_CLICK ∧
    (run cfgA initCtx c3Trace).2 = (run cfgA initCtx c3Pre).2 ∧
    (run cfgA initCtx c3Trace).1.state ≠ State.WAIT_DOUBLE_CLICK := by
  decide

/-- C3 (amended): a reverted raw edge emits nothing, and restores the
pre-edge context exactly when the pre-edge state is IDLE (edge samples 0,
expiry re-samples 1) or PRESSED (edge samples 1, expiry re-samples 0);
from WAIT_DOUBLE_CLICK it emits nothing and leaves every field unchanged
except that the state becomes IDLE rather than WAIT_DOUBLE_CLICK. -/
theorem C3_reverted_edge_frame (cfg : Config) (c : ButtonCtx) (t u : Int)
    (hdd : c.debounce_deadline = none) :
    (c.state = State.IDLE →
      run cfg c [Step.edge t 0, Step.debounceFire u 1] = (c, [])) ∧
    (c.state = State.PRESSED →
      run cfg c [Step.edge t 1, Step.debounceFire u 0] = (c, [])) ∧
    (c.state = State.WAIT_DOUBLE_CLICK →
      run cfg c [Step.edge t 0, Step.debounceFire u 1] =
        ({ c with state := State.IDLE }, [])) := by
  rcases c with ⟨st, pt, cc, dd, pd, dld⟩
  simp only [ButtonCtx.debounce_deadline] at hdd
  subst hdd
  refine ⟨?_, ?_, ?_⟩ <;> intro h <;>
    simp only [ButtonCtx.state] at h <;> subst h <;>
    simp [run, stepRun, button_isr_handler,
      button_debounce_timer_callback, startOnce]

/-- Witness for C3 (amended): a reverted edge from the post-init IDLE
context is a perfect no-op. -/
theorem C3_reverted_edge_frame_witness :
    run cfgA initCtx [Step.edge 3 0, Step.debounceFire 23 1] =
      (initCtx, []) :=
  (C3_reverted_edge_frame cfgA initCtx 3 23 rfl).1 rfl

/-- Trace for the C1 counterexample: a confirmed press, then a bounce edge
while the button is held whose sampled level reads pressed both in the ISR
and at debounce expiry. -/
def c1Trace : List Step :=
  [Step.edge 0 0, Step.debounceFire 20 0, Step.edge 100 0,
   Step.debounceFire 120 0]

/-- C1 counterexample: the engine emits `Pressed` twice in a row with no
intervening `Released` for a sequence of raw edges and time advances, so
Pressed/Released do not strictly alternate. -/
theorem C1_counterexample :
    (run cfgA initCtx c1Trace).2 = [Event.PRESSED, Event.PRESSED] ∧
    prScan true (run cfgA initCtx c1Trace).2 = none := by
  decide

/-- C1 (amended): for every sequence of raw edges and timer firings in
which each edge samples a level different from the stable line level of
the state it interrupts (0 in IDLE / WAIT_DOUBLE_CLICK, 1 in PRESSED),
the emitted `Pressed` and `Released` events strictly alternate starting
with `Pressed`: the alternation scan never reports a violation. -/
theorem C1_strict_alternation (cfg : Config) (steps : List Step)
    (hclean : cleanFrom cfg initCtx steps = true) :
    prScan true (run cfg initCtx steps).2 ≠ none := by
  have h := run_alt cfg steps initCtx (by decide) hclean
  have h2 : prScan true (run cfg initCtx steps).2 =
      some (expectPress (run cfg initCtx steps).1.state) := h.2
  simp [h2]

/-- Witness for C1 (amended) on a concrete clean double-click trace. -/
theorem C1_strict_alternation_witness :
    prScan true (run cfgA initCtx
      [Step.edge 0 0, Step.debounceFire 20 0, Step.edge 100 1,
       Step.debounceFire 120 1]).2 ≠ none :=
  C1_strict_alternation cfgA
    [Step.edge 0 0, Step.debounceFire 20 0, Step.edge 100 1,
     Step.debounceFire 120 1] (by decide)

/-- C4: with monotonic thresholds, a single press held continuously past
`extra_long_press_2_ms`, with the press timer firing at each scheduled
instant (the confirm at `t0 + debounce`, then fires at exactly the long,
extra-long-1 and extra-long-2 marks), emits exactly one LongPress, one
ExtraLongPress1 and one ExtraLongPress2, each once, in that order, all
before Released, and ends in IDLE. -/
theorem C4_long_hold_cascade (cfg : Config) (t0 t1 t2 : Int)
    (h1 : cfg.long_press_ms < cfg.extra_long_1_ms)
    (h2 : cfg.extra_long_1_ms < cfg.extra_long_2_ms)
    (hrel : (cfg.extra_long_2_ms : Int) ≤
      t2 - (t0 + (cfg.debounce_ms : Int))) :
    run cfg initCtx
      [Step.edge t0 0,
       Step.debounceFire (t0 + (cfg.debounce_ms : Int)) 0,
       Step.pressFire
         (t0 + (cfg.debounce_ms : Int) + (cfg.long_press_ms : Int)),
       Step.pressFire
         (t0 + (cfg.debounce_ms : Int) + (cfg.extra_long_1_ms : Int)),
       Step.pressFire
         (t0 + (cfg.debounce_ms : Int) + (cfg.extra_long_2_ms : Int)),
       Step.edge t1 1,
       Step.debounceFire t2 1] =
    ({ state := State.IDLE
       press_time := t0 + (cfg.debounce_ms : Int)
       click_count := 0
       debounce_deadline := none
       press_deadline := none
       double_deadline := none },
     [Event.PRESSED, Event.LONG_PRESS, Event.EXTRA_LONG_PRESS_1,
      Event.EXTRA_LONG_PRESS_2, Event.RELEASED]) := by
  have s1 : stepRun cfg initCtx (Step.edge t0 0) =
      (⟨State.DEBOUNCING_PRESS, 0, 0,
        some (t0 + (cfg.debounce_ms : Int)), none, none⟩, []) := by
    simp [stepRun, button_isr_handler, initCtx, startOnce]
  have s2 : stepRun cfg
      ⟨State.DEBOUNCING_PRESS, 0, 0,
        some (t0 + (cfg.debounce_ms : Int)), none, none⟩
      (Step.debounceFire (t0 + (cfg.debounce_ms : Int)) 0) =
      (⟨State.PRESSED, t0 + (cfg.debounce_ms : Int), 0, none,
        some (t0 + (cfg.debounce_ms : Int) + (cfg.long_press_ms : Int)),
        none⟩, [Event.PRESSED]) := by
    simp [stepRun, button_debounce_timer_callback, button_process_press,
      startOnce]
  have s3 : stepRun cfg
      ⟨State.PRESSED, t0 + (cfg.debounce_ms : Int), 0, none,
        some (t0 + (cfg.debounce_ms : Int) + (cfg.long_press_ms : Int)),
        none⟩
      (Step.pressFire
        (t0 + (cfg.debounce_ms : Int) + (cfg.long_press_ms : Int))) =
      (⟨State.PRESSED, t0 + (cfg.debounce_ms : Int), 0, none,
        some (t0 + (cfg.debounce_ms : Int) + (cfg.extra_long_1_ms : Int)),
        none⟩, [Event.LONG_PRESS]) := by
    simp only [stepRun, button_press_timer_callback, startOnce]
    norm_num
    all_goals first
      | rfl
      | (exfalso; omega)
      | (intro hX; exfalso; omega)
      | (split_ifs <;>
          first
            | rfl
            | (exfalso; omega)
            | simp_all
            | (constructor <;> omega)
            | omega
            | (intro hX; exfalso; omega))
      | simp_all
  have s4 : stepRun cfg
      ⟨State.PRESSED, t0 + (cfg.debounce_ms : Int), 0, none,
        some (t0 + (cfg.debounce_ms : Int) + (cfg.extra_long_1_ms : Int)),
        none⟩
      (Step.pressFire
        (t0 + (cfg.debounce_ms : Int) + (cfg.extra_long_1_ms : Int))) =
      (⟨State.PRESSED, t0 + (cfg.debounce_ms : Int), 0, none,
        some (t0 + (cfg.debounce_ms : Int) + (cfg.extra_long_2_ms : Int)),
        none⟩, [Event.EXTRA_LONG_PRESS_1]) := by
    simp only [stepRun, button_press_timer_callback, startOnce]
    norm_num
    all_goals first
      | rfl
      | (exfalso; omega)
      | (intro hX; exfalso; omega)
      | (split_ifs <;>
          first
            | rfl
            | (exfalso; omega)
            | simp_all
            | (constructor <;> omega)
            | omega
            | (intro hX; exfalso; omega))
      | simp_all
  have s5 : stepRun cfg
      ⟨State.PRESSED, t0 + (cfg.debounce_ms : Int), 0, none,
        some (t0 + (cfg.debounce_ms : Int) + (cfg.extra_long_2_ms : Int)),
        none⟩
      (Step.pressFire
        (t0 + (cfg.debounce_ms : Int) + (cfg.extra_long_2_ms : Int))) =
      (⟨State.PRESSED, t0 + (cfg.debounce_ms : Int), 0, none, none,
        none⟩, [Event.EXTRA_LONG_PRESS_2]) := by
    simp only [stepRun, button_press_timer_callback, startOnce]
    norm_num
    all_goals first
      | rfl
      | (exfalso; omega)
      | (intro hX; exfalso; omega)
      | (split_ifs <;>
          first
            | rfl
            | (exfalso; omega)
            | simp_all
            | (constructor <;> omega)
            | omega
            | (intro hX; exfalso; omega))
      | simp_all
  have s6 : stepRun cfg
      ⟨State.PRESSED, t0 + (cfg.debounce_ms : Int), 0, none, none, none⟩
      (Step.edge t1 1) =
      (⟨State.DEBOUNCING_RELEASE, t0 + (cfg.debounce_ms : Int), 0,
        some (t1 + (cfg.debounce_ms : Int)), none, none⟩, []) := by
    simp [stepRun, button_isr_handler, startOnce]
  have s7 : stepRun cfg
      ⟨State.DEBOUNCING_RELEASE, t0 + (cfg.debounce_ms : Int), 0,
        some (t1 + (cfg.debounce_ms : Int)), none, none⟩
      (Step.debounceFire t2 1) =
      (⟨State.IDLE, t0 + (cfg.debounce_ms : Int), 0, none, none, none⟩,
       [Event.RELEASED]) := by
    simp only [stepRun, button_debounce_timer_callback,
      button_process_release, startOnce]
    norm_num
    all_goals first
      | rfl
      | (exfalso; omega)
      | (intro hX; exfalso; omega)
      | (split_ifs <;>
          first
            | rfl
            | (exfalso; omega)
            | simp_all
            | (constructor <;> omega)
            | omega
            | (intro hX; exfalso; omega))
      | simp_all
  simp only [run]
  rw [s1]; dsimp only
  rw [s2]; dsimp only
  rw [s3]; dsimp only
  rw [s4]; dsimp only
  rw [s5]; dsimp only
  rw [s6]; dsimp only
  rw [s7]; dsimp only
  rfl


/-- Witness for C4 at the concrete configuration `cfgA`. -/
theorem C4_long_hold_cascade_witness :
    run cfgA initCtx
      [Step.edge 0 0,
       Step.debounceFire (0 + (cfgA.debounce_ms : Int)) 0,
       Step.pressFire
         (0 + (cfgA.debounce_ms : Int) + (cfgA.long_press_ms : Int)),
       Step.pressFire
         (0 + (cfgA.debounce_ms : Int) + (cfgA.extra_long_1_ms : Int)),
       Step.pressFire
         (0 + (cfgA.debounce_ms : Int) + (cfgA.extra_long_2_ms : Int)),
       Step.edge 6000 1,
       Step.debounceFire 6020 1] =
    ({ state := State.IDLE
       press_time := 0 + (cfgA.debounce_ms : Int)
       click_count := 0
       debounce_deadline := none
       press_deadline := none
       double_deadline := none },
     [Event.PRESSED, Event.LONG_PRESS, Event.EXTRA_LONG_PRESS_1,
      Event.EXTRA_LONG_PRESS_2, Event.RELEASED]) :=
  C4_long_hold_cascade cfgA 0 6000 6020 (by decide) (by decide) (by decide)

/-- C5: with monotonic thresholds, two press/release pairs each held
shorter than `long_press_ms`, the second press confirmed before the
double-click window expires, yield exactly
Pressed, Released, Pressed, Released, DoubleClick — no SingleClick — and
leave the engine in IDLE with `click_count = 0`. -/
theorem C5_double_click_sequence (cfg : Config) (t0 t1 t2 t3 : Int)
    (h1 : cfg.long_press_ms < cfg.extra_long_1_ms)
    (h2 : cfg.extra_long_1_ms < cfg.extra_long_2_ms)
    (hp1 : t1 - t0 < (cfg.long_press_ms : Int))
    (hp2 : t3 - t2 < (cfg.long_press_ms : Int))
    (hw : t2 < t1 + (cfg.double_click_window_ms : Int)) :
    run cfg initCtx
      [Step.edge t0 0,
       Step.debounceFire (t0 + (cfg.debounce_ms : Int)) 0,
       Step.edge t1 1,
       Step.debounceFire (t1 + (cfg.debounce_ms : Int)) 1,
       Step.edge t2 0,
       Step.debounceFire (t2 + (cfg.debounce_ms : Int)) 0,
       Step.edge t3 1,
       Step.debounceFire (t3 + (cfg.debounce_ms : Int)) 1] =
    ({ state := State.IDLE
       press_time := t2 + (cfg.debounce_ms : Int)
       click_count := 0
       debounce_deadline := none
       press_deadline := none
       double_deadline := none },
     [Event.PRESSED, Event.RELEASED, Event.PRESSED, Event.RELEASED,
      Event.DOUBLE_CLICK]) := by
  have b1 : stepRun cfg initCtx (Step.edge t0 0) =
      (⟨State.DEBOUNCING_PRESS, 0, 0,
        some (t0 + (cfg.debounce_ms : Int)), none, none⟩, []) := by
    simp [stepRun, button_isr_handler, initCtx, startOnce]
  have b2 : stepRun cfg
      ⟨State.DEBOUNCING_PRESS, 0, 0,
        some (t0 + (cfg.debounce_ms : Int)), none, none⟩
      (Step.debounceFire (t0 + (cfg.debounce_ms : Int)) 0) =
      (⟨State.PRESSED, t0 + (cfg.debounce_ms : Int), 0, none,
        some (t0 + (cfg.debounce_ms : Int) + (cfg.long_press_ms : Int)),
        none⟩, [Event.PRESSED]) := by
    simp [stepRun, button_debounce_timer_callback, button_process_press,
      startOnce]
  have b3 : stepRun cfg
      ⟨State.PRESSED, t0 + (cfg.debounce_ms : Int), 0, none,
        some (t0 + (cfg.debounce_ms : Int) + (cfg.long_press_ms : Int)),
        none⟩
      (Step.edge t1 1) =
      (⟨State.DEBOUNCING_RELEASE, t0 + (cfg.debounce_ms : Int), 0,
        some (t1 + (cfg.debounce_ms : Int)),
        some (t0 + (cfg.debounce_ms : Int) + (cfg.long_press_ms : Int)),
        none⟩, []) := by
    simp [stepRun, button_isr_handler, startOnce]
  have b4 : stepRun cfg
      ⟨State.DEBOUNCING_RELEASE, t0 + (cfg.debounce_ms : Int), 0,
        some (t1 + (cfg.debounce_ms : Int)),
        some (t0 + (cfg.debounce_ms : Int) + (cfg.long_press_ms : Int)),
        none⟩
      (Step.debounceFire (t1 + (cfg.debounce_ms : Int)) 1) =
      (⟨State.WAIT_DOUBLE_CLICK, t0 + (cfg.debounce_ms : Int), 1, none,
        none,
        some (t1 + (cfg.debounce_ms : Int) +
          (cfg.double_click_window_ms : Int))⟩, [Event.RELEASED]) := by
    simp only [stepRun, button_debounce_timer_callback,
      button_process_release, startOnce]
    norm_num
    all_goals first
      | rfl
      | (exfalso; omega)
      | (intro hX; exfalso; omega)
      | (split_ifs <;>
          first
            | rfl
            | (exfalso; omega)
            | simp_all
            | (constructor <;> omega)
            | omega
            | (intro hX; exfalso; omega))
      | simp_all
  have b5 : stepRun cfg
      ⟨State.WAIT_DOUBLE_CLICK, t0 + (cfg.debounce_ms : Int), 1, none,
        none,
        some (t1 + (cfg.debounce_ms : Int) +
          (cfg.double_click_window_ms : Int))⟩
      (Step.edge t2 0) =
      (⟨State.DEBOUNCING_PRESS, t0 + (cfg.debounce_ms : Int), 1,
        some (t2 + (cfg.debounce_ms : Int)), none,
        some (t1 + (cfg.debounce_ms : Int) +
          (cfg.double_click_window_ms : Int))⟩, []) := by
    simp [stepRun, button_isr_handler, startOnce]
  have b6 : stepRun cfg
      ⟨State.DEBOUNCING_PRESS, t0 + (cfg.debounce_ms : Int), 1,
        some (t2 + (cfg.debounce_ms : Int)), none,
        some (t1 + (cfg.debounce_ms : Int) +
          (cfg.double_click_window_ms : Int))⟩
      (Step.debounceFire (t2 + (cfg.debounce_ms : Int)) 0) =
      (⟨State.PRESSED, t2 + (cfg.debounce_ms : Int), 1, none,
        some (t2 + (cfg.debounce_ms : Int) + (cfg.long_press_ms : Int)),
        some (t1 + (cfg.debounce_ms : Int) +
          (cfg.double_click_window_ms : Int))⟩, [Event.PRESSED]) := by
    simp [stepRun, button_debounce_timer_callback, button_process_press,
      startOnce]
  have b7 : stepRun cfg
      ⟨State.PRESSED, t2 + (cfg.debounce_ms : Int), 1, none,
        some (t2 + (cfg.debounce_ms : Int) + (cfg.long_press_ms : Int)),
        some (t1 + (cfg.debounce_ms : Int) +
          (cfg.double_click_window_ms : Int))⟩
      (Step.edge t3 1) =
      (⟨State.DEBOUNCING_RELEASE, t2 + (cfg.debounce_ms : Int), 1,
        some (t3 + (cfg.debounce_ms : Int)),
        some (t2 + (cfg.debounce_ms : Int) + (cfg.long_press_ms : Int)),
        some (t1 + (cfg.debounce_ms : Int) +
          (cfg.double_click_window_ms : Int))⟩, []) := by
    simp [stepRun, button_isr_handler, startOnce]
  have b8 : stepRun cfg
      ⟨State.DEBOUNCING_RELEASE, t2 + (cfg.debounce_ms : Int), 1,
        some (t3 + (cfg.debounce_ms : Int)),
        some (t2 + (cfg.debounce_ms : Int) + (cfg.long_press_ms : Int)),
        some (t1 + (cfg.debounce_ms : Int) +
          (cfg.double_click_window_ms : Int))⟩
      (Step.debounceFire (t3 + (cfg.debounce_ms : Int)) 1) =
      (⟨State.IDLE, t2 + (cfg.debounce_ms : Int), 0, none, none, none⟩,
       [Event.RELEASED, Event.DOUBLE_CLICK]) := by
    simp only [stepRun, button_debounce_timer_callback,
      button_process_release, startOnce]
    norm_num
    all_goals first
      | rfl
      | (exfalso; omega)
      | (intro hX; exfalso; omega)
      | (split_ifs <;>
          first
            | rfl
            | (exfalso; omega)
            | simp_all
            | (constructor <;> omega)
            | omega
            | (intro hX; exfalso; omega))
      | simp_all
  simp only [run]
  rw [b1]; dsimp only
  rw [b2]; dsimp only
  rw [b3]; dsimp only
  rw [b4]; dsimp only
  rw [b5]; dsimp only
  rw [b6]; dsimp only
  rw [b7]; dsimp only
  rw [b8]; dsimp only
  rfl


/-- Witness for C5 at the concrete configuration `cfgA`. -/
theorem C5_double_click_sequence_witness :
    run cfgA initCtx
      [Step.edge 0 0,
       Step.debounceFire (0 + (cfgA.debounce_ms : Int)) 0,
       Step.edge 100 1,
       Step.debounceFire (100 + (cfgA.debounce_ms : Int)) 1,
       Step.edge 200 0,
       Step.debounceFire (200 + (cfgA.debounce_ms : Int)) 0,
       Step.edge 300 1,
       Step.debounceFire (300 + (cfgA.debounce_ms : Int)) 1] =
    ({ state := State.IDLE
       press_time := 200 + (cfgA.debounce_ms : Int)
       click_count := 0
       debounce_deadline := none
       press_deadline := none
       double_deadline := none },
     [Event.PRESSED, Event.RELEASED, Event.PRESSED, Event.RELEASED,
      Event.DOUBLE_CLICK]) :=
  C5_double_click_sequence cfgA 0 100 200 300 (by decide) (by decide)
    (by decide) (by decide) (by decide)

end MaiaButton
